import Mathlib

/-!
Shallow embedding of the telemetry reconciliation pipeline of the
drone-dashboard repository.

Embedded code:
- src/services/dynamodb.ts : the batch-scan source adapter
  (`getLatestTelemetry`, lines 69-123) and the fusion engine
  (`transformMavlinkToTelemetry`, lines 129-212);
- src/services/api.ts : the pre-aggregated HTTP source adapter
  (`getLatestTelemetry`, lines 16-46);
- src/hooks/useDynamoDB.ts : the polling controller wired to the HTTP
  adapter (`pollTelemetry`, lines 21-46), and the legacy variant of the
  same hook wired to the DynamoDB adapter (types file / legacy hook in
  the unnamed sources).

JS numbers are modelled as rationals (ℚ); NaN is not modelled.  JS
truthiness on a number is `x ≠ 0`, on a string `s ≠ ""`.  A possibly
missing object property is an `Option`.  An async function that can
reject is modelled as a function from an `Except`-valued outcome of its
awaited call.
-/

/-- Position sub-record of the fused snapshot (src/types/telemetry.ts). -/
structure Position where
  lat : ℚ
  lon : ℚ
  alt : ℚ
deriving DecidableEq

/-- Velocity sub-record of the fused snapshot (src/types/telemetry.ts). -/
structure Velocity where
  vx : ℚ
  vy : ℚ
  vz : ℚ
deriving DecidableEq

/-- Attitude sub-record of the fused snapshot (src/types/telemetry.ts). -/
structure Attitude where
  roll : ℚ
  pitch : ℚ
  yaw : ℚ
deriving DecidableEq

/-- The fused Telemetry snapshot (src/types/telemetry.ts).  The declared
interface has fields `droneId` .. `armed` plus the optional
`groundSpeed` and `distanceFromHome`.  The components additionally read
an optional property `hasStateData` that the interface does not declare
(DashboardHeader.tsx line 26, FullScreenDashboard.tsx line 25,
ProfessionalTelemetry.tsx line 62); we therefore carry it as an
`Option Bool` so that its presence or absence on a produced object is
expressible.  `none` models an absent (undefined) property. -/
structure Telemetry where
  droneId : String
  timestamp : ℚ
  position : Position
  velocity : Velocity
  attitude : Attitude
  battery : ℚ
  flightMode : String
  armed : Bool
  groundSpeed : Option ℚ
  distanceFromHome : Option ℚ
  hasStateData : Option Bool
deriving DecidableEq

/-- The `data` payload of one raw DynamoDB record
(src/services/dynamodb.ts, interface `DynamoDBTelemetryItem`, lines
55-59).  `type` and `timestamp` are declared required, but every read of
`timestamp` in the code is guarded (`item.data?.timestamp || ...`), so we
model it as optional; the kind-specific fields (`remaining`, `voltage`
for `battery`; `relative`, `amsl` for `altitude`; `armed`, `mode` for
`state`) come through the `[key: string]: any` index signature and are
modelled as optional.  The code also accepts numeric strings for
`relative`/`amsl` and applies `parseFloat`; we model those as the parsed
number. -/
structure MavlinkData where
  type : String
  timestamp : Option ℚ
  remaining : Option ℚ
  voltage : Option ℚ
  relative : Option ℚ
  amsl : Option ℚ
  armed : Option Bool
  mode : Option ℤ
deriving DecidableEq

/-- One raw DynamoDB record (src/services/dynamodb.ts, interface
`DynamoDBTelemetryItem`, lines 50-60). -/
structure DynamoDBTelemetryItem where
  timestamp : ℚ
  messageId : Option ℤ
  sysid : Option ℤ
  compid : Option ℤ
  data : MavlinkData
deriving DecidableEq

/-- JS `x || d` on an optional number: the default is taken when the
value is absent or falsy (0). -/
def numOr (o : Option ℚ) (d : ℚ) : ℚ :=
  match o with
  | some x => if x = 0 then d else x
  | none => d

/-- Effective timestamp of a record:
`item.data?.timestamp || item.timestamp || 0` (src/services/dynamodb.ts
lines 80-81 and 142).  `item.timestamp || 0` equals `item.timestamp` for
every rational, so the inner fallback collapses. -/
def effTime (i : DynamoDBTelemetryItem) : ℚ :=
  numOr i.data.timestamp i.timestamp

/-- The fusion engine's per-kind lookup predicate
`item.data?.type === 'battery'` (src/services/dynamodb.ts line 137). -/
def isBatteryItem (i : DynamoDBTelemetryItem) : Bool :=
  i.data.type == "battery"

/-- Lookup predicate `item.data?.type === 'altitude'` (line 138). -/
def isAltitudeItem (i : DynamoDBTelemetryItem) : Bool :=
  i.data.type == "altitude"

/-- Lookup predicate `item.data?.type === 'state'` (line 139). -/
def isStateItem (i : DynamoDBTelemetryItem) : Bool :=
  i.data.type == "state"

/-- Grouping key of a record: `itemData.type || 'unknown'`
(src/services/dynamodb.ts line 90; the empty string is the only falsy
string). -/
def itemKind (i : DynamoDBTelemetryItem) : String :=
  if i.data.type = "" then "unknown" else i.data.type

/-- `latestByType.has(t)` on the accumulated association list
(src/services/dynamodb.ts lines 93 and 98). -/
def hasKind (acc : List DynamoDBTelemetryItem) (t : String) : Bool :=
  acc.any (fun j => itemKind j == t)

/-- One step of the grouping pass (src/services/dynamodb.ts lines
93-95): `if (!latestByType.has(type)) latestByType.set(type, item)`,
on the insertion-ordered association list that models the JS `Map`. -/
def insertKind (acc : List DynamoDBTelemetryItem)
    (i : DynamoDBTelemetryItem) : List DynamoDBTelemetryItem :=
  if hasKind acc (itemKind i) then acc else acc ++ [i]

/-- The grouping pass of the batch-scan adapter
(src/services/dynamodb.ts lines 86-103): walk the sorted records, keep
the first record observed per distinct kind (insertion order preserved,
as a JS `Map` does), and stop early once `battery`, `altitude` and
`state` have each been seen (lines 98-100). -/
def collectLatest (acc : List DynamoDBTelemetryItem) :
    List DynamoDBTelemetryItem → List DynamoDBTelemetryItem
  | [] => acc
  | i :: rest =>
    if hasKind (insertKind acc i) "battery" && hasKind (insertKind acc i) "altitude"
        && hasKind (insertKind acc i) "state" then
      insertKind acc i
    else
      collectLatest (insertKind acc i) rest

/-- The descending sort by effective timestamp
(src/services/dynamodb.ts lines 79-83): JS `Array.prototype.sort` with
comparator `(a, b) => bTime - aTime` is a stable sort placing `a` before
`b` when `bTime ≤ aTime`; `mergeSort` with that relation is the same
stable sort. -/
def sortByTimestampDesc (items : List DynamoDBTelemetryItem) :
    List DynamoDBTelemetryItem :=
  items.mergeSort (fun a b => decide (effTime b ≤ effTime a))

namespace Dynamodb

/-- The batch-scan source adapter `getLatestTelemetry`
(src/services/dynamodb.ts lines 69-123).  The awaited scan either
resolves with an optional item list (`result.Items`) or rejects; the
whole body is inside `try`/`catch`, and the `catch` returns `[]`.  On a
non-empty item list the records are sorted descending by effective
timestamp and grouped to the latest record per kind; otherwise `[]` is
returned. -/
def getLatestTelemetry
    (outcome : Except String (Option (List DynamoDBTelemetryItem))) :
    List DynamoDBTelemetryItem :=
  match outcome with
  | .ok (some items) =>
    if items.isEmpty then [] else collectLatest [] (sortByTimestampDesc items)
  | .ok none => []
  | .error _ => []

end Dynamodb

/-- The fixed numeric-mode lookup table `modeMap`
(src/services/dynamodb.ts lines 170-182). -/
def modeMap (m : ℤ) : Option String :=
  if m = 0 then some "STABILIZE"
  else if m = 1 then some "ACRO"
  else if m = 2 then some "ALT_HOLD"
  else if m = 3 then some "AUTO"
  else if m = 4 then some "GUIDED"
  else if m = 5 then some "LOITER"
  else if m = 6 then some "RTL"
  else if m = 7 then some "CIRCLE"
  else if m = 8 then some "LAND"
  else if m = 9 then some "OF_LOITER"
  else if m = 10 then some "TAKEOFF"
  else none

/-- Flight-mode rendering: `modeMap[mode] || MODE_mode`
(src/services/dynamodb.ts line 183; every table entry is a non-empty,
hence truthy, string). -/
def flightModeOf (m : ℤ) : String :=
  (modeMap m).getD ("MODE_" ++ toString m)

/-- Battery percentage before the final clamp
(src/services/dynamodb.ts lines 146-153): use `remaining` when the
property is present (`!== undefined`); otherwise, when `voltage` is
truthy (present and non-zero), estimate
`clamp(((voltage - 12) / 4.2) * 100)`; otherwise 100. -/
def batteryPercent (remaining voltage : Option ℚ) : ℚ :=
  match remaining with
  | some r => r
  | none =>
    match voltage with
    | some v => if v = 0 then 100 else max 0 (min 100 ((v - 12) / 4.2 * 100))
    | none => 100

/-- Altitude extraction (src/services/dynamodb.ts lines 156-163):
`relative` preferred over `amsl`, default 0 (string inputs already
modelled as parsed numbers). -/
def altitudeOf (relative amsl : Option ℚ) : ℚ :=
  match relative with
  | some a => a
  | none =>
    match amsl with
    | some a => a
    | none => 0

/-- Drone id number: `items[0]?.sysid || 1`
(src/services/dynamodb.ts line 191; 0 is falsy). -/
def droneSysid (items : List DynamoDBTelemetryItem) : ℤ :=
  match items.head? with
  | some i =>
    match i.sysid with
    | some s => if s = 0 then 1 else s
    | none => 1
  | none => 1

/-- The fusion engine `transformMavlinkToTelemetry`
(src/services/dynamodb.ts lines 129-212).  `now` is the value of
`Date.now()` at the call.  Note that the returned object literal (lines
190-211) has no `hasStateData` property, so that field is `none`, and no
`groundSpeed`/`distanceFromHome`. -/
def transformMavlinkToTelemetry (items : List DynamoDBTelemetryItem)
    (now : ℚ) : Telemetry :=
  let batteryData := (items.find? isBatteryItem).map (·.data)
  let altitudeData := (items.find? isAltitudeItem).map (·.data)
  let stateData := (items.find? isStateItem).map (·.data)
  { droneId := "drone-" ++ toString (droneSysid items)
    timestamp := (items.map effTime).foldr max now
    position :=
      { lat := 37.7749
        lon := -122.4194
        alt := altitudeOf (altitudeData.bind (·.relative)) (altitudeData.bind (·.amsl)) }
    velocity := { vx := 0, vy := 0, vz := 0 }
    attitude := { roll := 0, pitch := 0, yaw := 0 }
    battery :=
      max 0 (min 100 (batteryPercent (batteryData.bind (·.remaining))
        (batteryData.bind (·.voltage))))
    flightMode := flightModeOf ((stateData.bind (·.mode)).getD 0)
    armed := (stateData.bind (·.armed)).getD false
    groundSpeed := none
    distanceFromHome := none
    hasStateData := none }

namespace Api

/-- Outcome of the awaited `fetch` + `response.json()` in the HTTP
adapter (src/services/api.ts lines 18-29): either a response arrived and
parsed (`success ok body`, where `ok` is `response.ok` and `body` is the
optional `data.telemetry`, absent or null modelled as `none`), or the
fetch rejected / the body failed to parse (`failure msg`). -/
inductive FetchOutcome where
  | success (ok : Bool) (body : Option Telemetry)
  | failure (msg : String)

/-- The pre-aggregated HTTP source adapter `getLatestTelemetry`
(src/services/api.ts lines 16-46).  A non-2xx response throws inside the
`try`; that throw, a transport rejection and a parse failure are all
caught by the `catch`, which returns `null`; on success the function
returns `data.telemetry || null`. -/
def getLatestTelemetry : FetchOutcome → Option Telemetry
  | .success ok body => if ok then body else none
  | .failure _ => none

end Api

/-- The state owned by the polling hook: the published telemetry cell,
the connectivity flag and the recorded error message
(src/hooks/useDynamoDB.ts lines 13-15). -/
structure HookState where
  telemetry : Option Telemetry
  isConnected : Bool
  error : Option String
deriving DecidableEq

namespace UseDynamoDB

/-- One poll cycle of the hook wired to the HTTP adapter
(src/hooks/useDynamoDB.ts, `pollTelemetry`, lines 21-46): on a resolved
truthy value publish it and mark connected; on a resolved null keep the
published telemetry and mark connected; on a rejection record the
message, mark disconnected and keep the published telemetry. -/
def pollTelemetry (s : HookState)
    (result : Except String (Option Telemetry)) : HookState :=
  match result with
  | .ok (some d) => { telemetry := some d, isConnected := true, error := none }
  | .ok none => { telemetry := s.telemetry, isConnected := true, error := none }
  | .error msg => { telemetry := s.telemetry, isConnected := false, error := some msg }

end UseDynamoDB

namespace LegacyHook

/-- One poll cycle of the legacy hook wired directly to the DynamoDB
adapter (unnamed sources, `pollTelemetry`): a non-empty item list is
fused and published; an empty list keeps the published telemetry and
marks connected; a rejection records the message and marks
disconnected. -/
def pollTelemetry (s : HookState)
    (result : Except String (List DynamoDBTelemetryItem)) (now : ℚ) : HookState :=
  match result with
  | .ok items =>
    if items.isEmpty then
      { telemetry := s.telemetry, isConnected := true, error := none }
    else
      { telemetry := some (transformMavlinkToTelemetry items now),
        isConnected := true, error := none }
  | .error msg => { telemetry := s.telemetry, isConnected := false, error := some msg }

end LegacyHook

/-- One poll cycle of the hook as wired to the HTTP adapter: since
`Api.getLatestTelemetry` always resolves, the hook's `await` always
succeeds and the cycle is the `Except.ok` branch of the hook applied to
the adapter's result. -/
def pollCycleApi (s : HookState) (o : Api.FetchOutcome) : HookState :=
  UseDynamoDB.pollTelemetry s (Except.ok (Api.getLatestTelemetry o))

/-- A concrete `state` fragment with an observed `armed = false`. -/
def stateFalseItem : DynamoDBTelemetryItem :=
  { timestamp := 500, messageId := none, sysid := none, compid := none,
    data := { type := "state", timestamp := some 500, remaining := none,
              voltage := none, relative := none, amsl := none,
              armed := some false, mode := some 0 } }

/-- A concrete `state` fragment with an observed `armed = true`. -/
def stateTrueItem : DynamoDBTelemetryItem :=
  { timestamp := 500, messageId := none, sysid := none, compid := none,
    data := { type := "state", timestamp := some 500, remaining := none,
              voltage := none, relative := none, amsl := none,
              armed := some true, mode := some 0 } }

/-- A concrete `battery` fragment with producer timestamp 100 and
`remaining = 50`. -/
def batteryItem100 : DynamoDBTelemetryItem :=
  { timestamp := 100, messageId := none, sysid := none, compid := none,
    data := { type := "battery", timestamp := some 100, remaining := some 50,
              voltage := none, relative := none, amsl := none,
              armed := none, mode := none } }

/-- A concrete `battery` fragment with `voltage = 0` and no `remaining`. -/
def batteryVoltZeroItem : DynamoDBTelemetryItem :=
  { timestamp := 100, messageId := none, sysid := none, compid := none,
    data := { type := "battery", timestamp := some 100, remaining := none,
              voltage := some 0, relative := none, amsl := none,
              armed := none, mode := none } }

/-- A concrete `battery` fragment with `remaining = 42` and a voltage. -/
def batteryRemaining42Item : DynamoDBTelemetryItem :=
  { timestamp := 100, messageId := none, sysid := none, compid := none,
    data := { type := "battery", timestamp := some 100, remaining := some 42,
              voltage := some 16, relative := none, amsl := none,
              armed := none, mode := none } }

/-- A concrete `state` fragment with `mode = 4`. -/
def stateMode4Item : DynamoDBTelemetryItem :=
  { timestamp := 100, messageId := none, sysid := none, compid := none,
    data := { type := "state", timestamp := some 100, remaining := none,
              voltage := none, relative := none, amsl := none,
              armed := some true, mode := some 4 } }

/-- A concrete `battery` fragment: producer timestamp 100,
`remaining = 30`. -/
def batteryT1Item : DynamoDBTelemetryItem :=
  { timestamp := 100, messageId := none, sysid := none, compid := none,
    data := { type := "battery", timestamp := some 100, remaining := some 30,
              voltage := none, relative := none, amsl := none,
              armed := none, mode := none } }

/-- A concrete `battery` fragment: producer timestamp 200,
`remaining = 60`. -/
def batteryT2Item : DynamoDBTelemetryItem :=
  { timestamp := 200, messageId := none, sysid := none, compid := none,
    data := { type := "battery", timestamp := some 200, remaining := some 60,
              voltage := none, relative := none, amsl := none,
              armed := none, mode := none } }

/-- C1: the fusion engine emits no `hasStateData` marker at all.  The
batch containing a `state` fragment with an observed `armed = false` and
the empty batch fuse to literally the same Telemetry, so no consumer can
distinguish "observed disarmed" from "no state data"; and even on a
batch whose `state` fragment has `armed = true` the result carries
`hasStateData = none` (property absent), not the claimed "state data
present" marker, although `armed` itself is `true`. -/
theorem trust_flag_never_emitted :
    transformMavlinkToTelemetry [stateFalseItem] 1000
      = transformMavlinkToTelemetry [] 1000
  ∧ (transformMavlinkToTelemetry [stateTrueItem] 1000).hasStateData = none
  ∧ (transformMavlinkToTelemetry [stateTrueItem] 1000).armed = true :=
  ⟨rfl, rfl, rfl⟩

/-- C6: both source adapters convert every failure outcome into the
empty-result signal instead of propagating it: the batch-scan variant
resolves with `[]` on a rejected scan (and on an absent item list), and
the HTTP variant resolves with `null` on a transport failure or parse
failure and on a non-2xx response. -/
theorem adapter_never_raises (e msg : String) (body : Option Telemetry) :
    Dynamodb.getLatestTelemetry (Except.error e) = []
  ∧ Dynamodb.getLatestTelemetry (Except.ok none) = []
  ∧ Api.getLatestTelemetry (Api.FetchOutcome.failure msg) = none
  ∧ Api.getLatestTelemetry (Api.FetchOutcome.success false body) = none :=
  ⟨rfl, rfl, rfl, rfl⟩

/-- C7: a poll cycle whose adapter resolves with the empty result (null
for the HTTP hook, the empty list for the legacy hook) leaves the
published telemetry unchanged, marks the connection healthy, and clears
the error, in both hooks. -/
theorem empty_poll_keeps_state (s : HookState) (now : ℚ) :
    (UseDynamoDB.pollTelemetry s (Except.ok none)).telemetry = s.telemetry
  ∧ (UseDynamoDB.pollTelemetry s (Except.ok none)).isConnected = true
  ∧ (UseDynamoDB.pollTelemetry s (Except.ok none)).error = none
  ∧ (LegacyHook.pollTelemetry s (Except.ok []) now).telemetry = s.telemetry
  ∧ (LegacyHook.pollTelemetry s (Except.ok []) now).isConnected = true
  ∧ (LegacyHook.pollTelemetry s (Except.ok []) now).error = none :=
  ⟨rfl, rfl, rfl, rfl, rfl, rfl⟩

/-- C8: a poll cycle whose adapter call rejects keeps the published
telemetry, marks the connection lost and records the error message; a
subsequent successful cycle with data restores connectivity, clears the
error and replaces the snapshot. -/
theorem error_cycle_then_recovery (s : HookState) (msg : String) (d : Telemetry) :
    (UseDynamoDB.pollTelemetry s (Except.error msg)).telemetry = s.telemetry
  ∧ (UseDynamoDB.pollTelemetry s (Except.error msg)).isConnected = false
  ∧ (UseDynamoDB.pollTelemetry s (Except.error msg)).error = some msg
  ∧ UseDynamoDB.pollTelemetry (UseDynamoDB.pollTelemetry s (Except.error msg))
      (Except.ok (some d))
      = { telemetry := some d, isConnected := true, error := none } :=
  ⟨rfl, rfl, rfl, rfl⟩

/-- Helper: a fold of `max` stays below a common upper bound. -/
theorem foldr_max_le {l : List ℚ} {a b : ℚ} (ha : a ≤ b) (h : ∀ x ∈ l, x ≤ b) :
    l.foldr max a ≤ b := by
  induction l with
  | nil => exact ha
  | cons x xs ih =>
    simp only [List.foldr]
    exact max_le (h x (List.mem_cons_self x xs))
      (ih (fun y hy => h y (List.mem_cons_of_mem x hy)))

/-- Helper: a fold of `max` over elements all below the seed returns the
seed. -/
theorem foldr_max_eq_init {l : List ℚ} {a : ℚ} (h : ∀ x ∈ l, x ≤ a) :
    l.foldr max a = a := by
  induction l with
  | nil => rfl
  | cons x xs ih =>
    simp only [List.foldr]
    rw [ih (fun y hy => h y (List.mem_cons_of_mem x hy))]
    exact max_eq_right (h x (List.mem_cons_self x xs))

/-- Helper: a fold of `max` returns a member that dominates the seed and
every element. -/
theorem foldr_max_eq_mem {l : List ℚ} {a b : ℚ} (hb : b ∈ l) (hab : a ≤ b)
    (h : ∀ x ∈ l, x ≤ b) : l.foldr max a = b := by
  induction l with
  | nil => cases hb
  | cons x xs ih =>
    simp only [List.foldr]
    rcases List.mem_cons.mp hb with rfl | hb'
    · exact max_eq_left (foldr_max_le hab (fun y hy => h y (List.mem_cons_of_mem _ hy)))
    · rw [ih hb' (fun y hy => h y (List.mem_cons_of_mem x hy))]
      exact max_eq_right (h x (List.mem_cons_self x xs))

/-- C2 (amended): the fused timestamp is the maximum of the fragments'
effective timestamps AND the wall-clock time `Date.now()`, on every
batch, not only on the empty one: whenever every fragment timestamp is
at most the wall-clock time the fused timestamp IS the wall-clock fetch
time, and the maximum fragment timestamp wins only when it is at least
the wall-clock time. -/
theorem fused_timestamp_includes_wall_clock
    (items : List DynamoDBTelemetryItem) (now : ℚ) :
    ((∀ i ∈ items, effTime i ≤ now) →
      (transformMavlinkToTelemetry items now).timestamp = now)
  ∧ (∀ b ∈ items, now ≤ effTime b → (∀ j ∈ items, effTime j ≤ effTime b) →
      (transformMavlinkToTelemetry items now).timestamp = effTime b) := by
  constructor
  · intro h
    show (items.map effTime).foldr max now = now
    refine foldr_max_eq_init ?_
    intro x hx
    rcases List.mem_map.mp hx with ⟨i, hi, rfl⟩
    exact h i hi
  · intro b hb hnow hmax
    show (items.map effTime).foldr max now = effTime b
    refine foldr_max_eq_mem (List.mem_map_of_mem effTime hb) hnow ?_
    intro x hx
    rcases List.mem_map.mp hx with ⟨j, hj, rfl⟩
    exact hmax j hj

/-- C2 (counterexample): on the non-empty batch holding one `battery`
fragment with producer timestamp 100, fused at wall-clock time 1000, the
fused timestamp is 1000 — the wall-clock fetch time — and not the
maximum producer timestamp 100 that the claim requires. -/
theorem fused_timestamp_wall_clock_counterexample :
    (transformMavlinkToTelemetry [batteryItem100] 1000).timestamp = 1000
  ∧ (1000 : ℚ) ≠ 100 := by
  exact ⟨rfl, by norm_num⟩

/-- C2 (witness): the amended theorem applied to the concrete
one-fragment batch of the counterexample. -/
theorem fused_timestamp_includes_wall_clock_witness :
    (transformMavlinkToTelemetry [batteryItem100] 1000).timestamp = 1000 := by
  refine (fused_timestamp_includes_wall_clock [batteryItem100] 1000).1 ?_
  intro i hi
  rcases List.mem_singleton.mp hi with rfl
  norm_num [effTime, numOr, batteryItem100]

/-- Helper: clamping an already clamped value changes nothing. -/
theorem clamp_of_clamped {y : ℚ} (h0 : 0 ≤ y) (h1 : y ≤ 100) :
    max 0 (min 100 y) = y := by
  rw [min_eq_right h1, max_eq_right h0]

/-- Helper: the clamp to [0,100] is idempotent. -/
theorem clamp_clamp (x : ℚ) :
    max 0 (min 100 (max 0 (min 100 x))) = max 0 (min 100 x) :=
  clamp_of_clamped (le_max_left 0 _)
    (max_le (by norm_num) (min_le_left 100 x))

/-- C3 (amended): battery derivation from the battery fragment the
fusion engine selects.  A present `remaining` wins regardless of any
voltage, but is still clamped to [0,100] by the final clamp; with no
`remaining` and a present non-zero `voltage` the linear estimate
`((voltage − 12) / 4.2) · 100` clamped to [0,100] is used; with no
`remaining` and `voltage` absent or zero (a falsy voltage) the battery
defaults to 100. -/
theorem battery_derivation_amended
    (items : List DynamoDBTelemetryItem) (b : DynamoDBTelemetryItem)
    (now r v : ℚ)
    (hfind : items.find? isBatteryItem = some b) :
    (b.data.remaining = some r →
      (transformMavlinkToTelemetry items now).battery = max 0 (min 100 r))
  ∧ (b.data.remaining = none → b.data.voltage = some v → v ≠ 0 →
      (transformMavlinkToTelemetry items now).battery
        = max 0 (min 100 ((v - 12) / 4.2 * 100)))
  ∧ (b.data.remaining = none → (b.data.voltage = none ∨ b.data.voltage = some 0) →
      (transformMavlinkToTelemetry items now).battery = 100) := by
  have hbat : (transformMavlinkToTelemetry items now).battery
      = max 0 (min 100 (batteryPercent
          (((items.find? isBatteryItem).map (·.data)).bind (·.remaining))
          (((items.find? isBatteryItem).map (·.data)).bind (·.voltage)))) := rfl
  refine ⟨?_, ?_, ?_⟩
  · intro hr
    rw [hbat, hfind]
    simp [batteryPercent, hr]
  · intro hr hv hvne
    rw [hbat, hfind]
    simp only [Option.map_some', Option.some_bind, hr, hv, batteryPercent]
    rw [if_neg hvne]
    exact clamp_clamp _
  · intro hr hv
    rw [hbat, hfind]
    rcases hv with hv | hv <;> simp [batteryPercent, hr, hv]

/-- C3 (counterexample): the claim requires that with `remaining` absent
and `voltage` present the battery equals the clamped linear estimate,
which at `voltage = 0` is `clamp(((0 − 12) / 4.2) · 100) = 0`; but the
code tests the voltage for truthiness, so `voltage = 0` falls through to
the default and the fused battery is 100. -/
theorem battery_voltage_zero_counterexample :
    (transformMavlinkToTelemetry [batteryVoltZeroItem] 1000).battery = 100
  ∧ (100 : ℚ) ≠ max 0 (min 100 ((0 - 12) / 4.2 * 100)) := by
  constructor
  · rfl
  · norm_num

/-- C3 (witness): the amended theorem applied to a concrete batch whose
battery fragment has `remaining = 42` and a voltage: the fused battery
is 42. -/
theorem battery_derivation_amended_witness :
    (transformMavlinkToTelemetry [batteryRemaining42Item] 0).battery = 42 := by
  have h := (battery_derivation_amended [batteryRemaining42Item]
    batteryRemaining42Item 0 42 0 (by rfl)).1 rfl
  rw [h]
  norm_num

/-- C4: the fusion engine is total and defaults independently:
`velocity` and `attitude` are always zero-filled, `lat`/`lon` are always
the fixed defaults (no GPS fragment kind exists), a batch with no
`battery` fragment gets battery 100, one with no `altitude` fragment
gets altitude 0, one with no `state` fragment gets `armed = false` and
flight mode STABILIZE, and the empty batch produces the fully populated
default snapshot with the wall-clock timestamp. -/
theorem fusion_totality (items : List DynamoDBTelemetryItem) (now : ℚ) :
    (transformMavlinkToTelemetry items now).velocity = ⟨0, 0, 0⟩
  ∧ (transformMavlinkToTelemetry items now).attitude = ⟨0, 0, 0⟩
  ∧ (transformMavlinkToTelemetry items now).position.lat = 37.7749
  ∧ (transformMavlinkToTelemetry items now).position.lon = -122.4194
  ∧ ((∀ i ∈ items, ¬ i.data.type = "battery") →
      (transformMavlinkToTelemetry items now).battery = 100)
  ∧ ((∀ i ∈ items, ¬ i.data.type = "altitude") →
      (transformMavlinkToTelemetry items now).position.alt = 0)
  ∧ ((∀ i ∈ items, ¬ i.data.type = "state") →
      (transformMavlinkToTelemetry items now).armed = false
      ∧ (transformMavlinkToTelemetry items now).flightMode = "STABILIZE")
  ∧ (items = [] →
      transformMavlinkToTelemetry items now =
        { droneId := "drone-1", timestamp := now,
          position := ⟨37.7749, -122.4194, 0⟩,
          velocity := ⟨0, 0, 0⟩, attitude := ⟨0, 0, 0⟩,
          battery := 100, flightMode := "STABILIZE", armed := false,
          groundSpeed := none, distanceFromHome := none,
          hasStateData := none }) := by
  refine ⟨rfl, rfl, rfl, rfl, ?_, ?_, ?_, ?_⟩
  · intro h
    have hnone : items.find? isBatteryItem = none := by
      refine List.find?_eq_none.mpr ?_
      intro x hx
      simpa [isBatteryItem] using h x hx
    have hbat : (transformMavlinkToTelemetry items now).battery
        = max 0 (min 100 (batteryPercent
            (((items.find? isBatteryItem).map (·.data)).bind (·.remaining))
            (((items.find? isBatteryItem).map (·.data)).bind (·.voltage)))) := rfl
    rw [hbat, hnone]
    simp [batteryPercent]
  · intro h
    have hnone : items.find? isAltitudeItem = none := by
      refine List.find?_eq_none.mpr ?_
      intro x hx
      simpa [isAltitudeItem] using h x hx
    have halt : (transformMavlinkToTelemetry items now).position.alt
        = altitudeOf (((items.find? isAltitudeItem).map (·.data)).bind (·.relative))
            (((items.find? isAltitudeItem).map (·.data)).bind (·.amsl)) := rfl
    rw [halt, hnone]
    simp [altitudeOf]
  · intro h
    have hnone : items.find? isStateItem = none := by
      refine List.find?_eq_none.mpr ?_
      intro x hx
      simpa [isStateItem] using h x hx
    have harm : (transformMavlinkToTelemetry items now).armed
        = (((items.find? isStateItem).map (·.data)).bind (·.armed)).getD false := rfl
    have hfm : (transformMavlinkToTelemetry items now).flightMode
        = flightModeOf ((((items.find? isStateItem).map (·.data)).bind (·.mode)).getD 0) := rfl
    constructor
    · rw [harm, hnone]
      rfl
    · rw [hfm, hnone]
      rfl
  · intro h
    subst h
    rfl

/-- C4 (witness): the totality theorem applied to the empty batch at
wall-clock time 5. -/
theorem fusion_totality_witness :
    transformMavlinkToTelemetry [] 5 =
      { droneId := "drone-1", timestamp := 5,
        position := ⟨37.7749, -122.4194, 0⟩,
        velocity := ⟨0, 0, 0⟩, attitude := ⟨0, 0, 0⟩,
        battery := 100, flightMode := "STABILIZE", armed := false,
        groundSpeed := none, distanceFromHome := none,
        hasStateData := none } :=
  (fusion_totality [] 5).2.2.2.2.2.2.2 rfl

/-- C9: the flight mode of the fused snapshot follows the fixed lookup
table on the state fragment's numeric mode for the known codes 0..10,
and renders as the string MODE_ followed by the code for every code
outside the table. -/
theorem mode_mapping_table (items : List DynamoDBTelemetryItem)
    (b : DynamoDBTelemetryItem) (m : ℤ) (now : ℚ)
    (hfind : items.find? isStateItem = some b)
    (hmode : b.data.mode = some m) :
    (m = 0 → (transformMavlinkToTelemetry items now).flightMode = "STABILIZE")
  ∧ (m = 1 → (transformMavlinkToTelemetry items now).flightMode = "ACRO")
  ∧ (m = 2 → (transformMavlinkToTelemetry items now).flightMode = "ALT_HOLD")
  ∧ (m = 3 → (transformMavlinkToTelemetry items now).flightMode = "AUTO")
  ∧ (m = 4 → (transformMavlinkToTelemetry items now).flightMode = "GUIDED")
  ∧ (m = 5 → (transformMavlinkToTelemetry items now).flightMode = "LOITER")
  ∧ (m = 6 → (transformMavlinkToTelemetry items now).flightMode = "RTL")
  ∧ (m = 7 → (transformMavlinkToTelemetry items now).flightMode = "CIRCLE")
  ∧ (m = 8 → (transformMavlinkToTelemetry items now).flightMode = "LAND")
  ∧ (m = 9 → (transformMavlinkToTelemetry items now).flightMode = "OF_LOITER")
  ∧ (m = 10 → (transformMavlinkToTelemetry items now).flightMode = "TAKEOFF")
  ∧ ((m < 0 ∨ 10 < m) →
      (transformMavlinkToTelemetry items now).flightMode = "MODE_" ++ toString m) := by
  have hfm : (transformMavlinkToTelemetry items now).flightMode
      = flightModeOf ((((items.find? isStateItem).map (·.data)).bind (·.mode)).getD 0) := rfl
  rw [hfind] at hfm
  simp only [Option.map_some', Option.some_bind, hmode, Option.getD_some] at hfm
  refine ⟨?_, ?_, ?_, ?_, ?_, ?_, ?_, ?_, ?_, ?_, ?_, ?_⟩ <;> intro h
  case _ => subst h; rw [hfm]; rfl
  case _ => subst h; rw [hfm]; rfl
  case _ => subst h; rw [hfm]; rfl
  case _ => subst h; rw [hfm]; rfl
  case _ => subst h; rw [hfm]; rfl
  case _ => subst h; rw [hfm]; rfl
  case _ => subst h; rw [hfm]; rfl
  case _ => subst h; rw [hfm]; rfl
  case _ => subst h; rw [hfm]; rfl
  case _ => subst h; rw [hfm]; rfl
  case _ => subst h; rw [hfm]; rfl
  case _ =>
    rw [hfm]
    simp only [flightModeOf, modeMap]
    rw [if_neg (by omega : ¬ m = 0), if_neg (by omega : ¬ m = 1),
      if_neg (by omega : ¬ m = 2), if_neg (by omega : ¬ m = 3),
      if_neg (by omega : ¬ m = 4), if_neg (by omega : ¬ m = 5),
      if_neg (by omega : ¬ m = 6), if_neg (by omega : ¬ m = 7),
      if_neg (by omega : ¬ m = 8), if_neg (by omega : ¬ m = 9),
      if_neg (by omega : ¬ m = 10)]
    rfl

/-- C9 (witness): the mode table applied to a concrete batch whose
state fragment has mode 4: the flight mode is GUIDED. -/
theorem mode_mapping_table_witness :
    (transformMavlinkToTelemetry [stateMode4Item] 0).flightMode = "GUIDED" :=
  (mode_mapping_table [stateMode4Item] stateMode4Item 4 0 rfl rfl).2.2.2.2.1 rfl

/-- C10: in the hook as wired to the HTTP adapter every completed poll
cycle reports a healthy connection and no error, whatever the fetch
outcome — including transport failures and non-2xx responses — and the
connection stays healthy over any further sequence of cycles; the
disconnected branch of the hook is unreachable through adapter
failures because the adapter resolves with null instead of rejecting. -/
theorem disconnected_state_unreachable (s : HookState) (o : Api.FetchOutcome)
    (l : List Api.FetchOutcome) :
    (pollCycleApi s o).isConnected = true
  ∧ (pollCycleApi s o).error = none
  ∧ (l.foldl pollCycleApi (pollCycleApi s o)).isConnected = true := by
  have hstep : ∀ (s' : HookState) (o' : Api.FetchOutcome),
      (pollCycleApi s' o').isConnected = true ∧ (pollCycleApi s' o').error = none := by
    intro s' o'
    cases o' with
    | success ok body =>
      cases ok with
      | true =>
        cases body with
        | some d => exact ⟨rfl, rfl⟩
        | none => exact ⟨rfl, rfl⟩
      | false => exact ⟨rfl, rfl⟩
    | failure msg => exact ⟨rfl, rfl⟩
  refine ⟨(hstep s o).1, (hstep s o).2, ?_⟩
  induction l generalizing s o with
  | nil => exact (hstep s o).1
  | cons a rest ih =>
    rw [List.foldl_cons]
    exact ih (pollCycleApi s o) a

/-- Helper: the battery projection of the fused snapshot, by
definition. -/
theorem transform_battery_eq (items : List DynamoDBTelemetryItem) (now : ℚ) :
    (transformMavlinkToTelemetry items now).battery
      = max 0 (min 100 (batteryPercent
          (((items.find? isBatteryItem).map (·.data)).bind (·.remaining))
          (((items.find? isBatteryItem).map (·.data)).bind (·.voltage)))) := rfl

/-- Helper: a record's grouping key is `battery` exactly when the fusion
engine's battery predicate holds of it. -/
theorem itemKind_battery_iff (i : DynamoDBTelemetryItem) :
    itemKind i = "battery" ↔ isBatteryItem i = true := by
  unfold itemKind isBatteryItem
  by_cases h : i.data.type = ""
  · simp [h]
  · simp [h, beq_iff_eq]

/-- Helper: the map has no battery entry exactly when the accumulated
list has no record satisfying the battery predicate. -/
theorem hasKind_battery_false_iff (acc : List DynamoDBTelemetryItem) :
    hasKind acc "battery" = false ↔ acc.find? isBatteryItem = none := by
  rw [List.find?_eq_none]
  unfold hasKind
  rw [List.any_eq_false]
  constructor
  · intro H x hx hbat
    exact H x hx (by simpa [beq_iff_eq] using (itemKind_battery_iff x).mpr hbat)
  · intro H x hx hkind
    exact H x hx ((itemKind_battery_iff x).mp (by simpa [beq_iff_eq] using hkind))

/-- Helper: the grouping pass only ever appends to the accumulator. -/
theorem collectLatest_extends (l : List DynamoDBTelemetryItem) :
    ∀ acc, ∃ s, collectLatest acc l = acc ++ s := by
  induction l with
  | nil =>
    intro acc
    exact ⟨[], by simp [collectLatest]⟩
  | cons i rest ih =>
    intro acc
    have hins : ∃ t, insertKind acc i = acc ++ t := by
      unfold insertKind
      by_cases h : hasKind acc (itemKind i) = true
      · exact ⟨[], by simp [h]⟩
      · exact ⟨[i], by rw [if_neg h]⟩
    rcases hins with ⟨t, ht⟩
    by_cases hstop : (hasKind (insertKind acc i) "battery"
        && hasKind (insertKind acc i) "altitude"
        && hasKind (insertKind acc i) "state") = true
    · refine ⟨t, ?_⟩
      simp only [collectLatest, hstop, if_true]
      exact ht
    · rcases ih (insertKind acc i) with ⟨s, hs⟩
      refine ⟨t ++ s, ?_⟩
      simp only [collectLatest]
      rw [if_neg hstop, hs, ht, List.append_assoc]

/-- Helper: the battery record retained by the grouping pass is the
accumulator's battery entry if it has one, else the first battery
record of the remaining input; the early exit cannot fire before a
battery record has been retained. -/
theorem collectLatest_find?_battery (l : List DynamoDBTelemetryItem) :
    ∀ acc, (collectLatest acc l).find? isBatteryItem
      = (acc.find? isBatteryItem).or (l.find? isBatteryItem) := by
  induction l with
  | nil =>
    intro acc
    simp [collectLatest, Option.or_none]
  | cons i rest ih =>
    intro acc
    cases hA : acc.find? isBatteryItem with
    | some x =>
      rcases collectLatest_extends (i :: rest) acc with ⟨s, hs⟩
      rw [hs, List.find?_append, hA]
      rfl
    | none =>
      have hAK : hasKind acc "battery" = false := (hasKind_battery_false_iff acc).mpr hA
      by_cases hbat : isBatteryItem i = true
      · have hkind : itemKind i = "battery" := (itemKind_battery_iff i).mpr hbat
        have hinsert : insertKind acc i = acc ++ [i] := by
          unfold insertKind
          rw [hkind, hAK]
          simp
        have hfound : (insertKind acc i).find? isBatteryItem = some i := by
          rw [hinsert, List.find?_append, hA, Option.none_or]
          exact List.find?_cons_of_pos _ hbat
        by_cases hstop : (hasKind (insertKind acc i) "battery"
            && hasKind (insertKind acc i) "altitude"
            && hasKind (insertKind acc i) "state") = true
        · simp only [collectLatest]
          rw [if_pos hstop, hfound, Option.none_or,
            List.find?_cons_of_pos _ hbat]
        · simp only [collectLatest]
          rw [if_neg hstop, ih (insertKind acc i), hfound, Option.none_or,
            List.find?_cons_of_pos _ hbat]
          rfl
      · have hinsA : (insertKind acc i).find? isBatteryItem = none := by
          unfold insertKind
          by_cases h : hasKind acc (itemKind i) = true
          · rw [if_pos h]
            exact hA
          · rw [if_neg h, List.find?_append, hA, Option.none_or]
            refine List.find?_eq_none.mpr ?_
            intro x hx
            rcases List.mem_singleton.mp hx with rfl
            exact hbat
        have hstopfalse : (hasKind (insertKind acc i) "battery"
            && hasKind (insertKind acc i) "altitude"
            && hasKind (insertKind acc i) "state") = false := by
          have hb : hasKind (insertKind acc i) "battery" = false :=
            (hasKind_battery_false_iff _).mpr hinsA
          simp [hb]
        simp only [collectLatest]
        rw [if_neg (by simp [hstopfalse]), ih (insertKind acc i), hinsA, Option.none_or,
          Option.none_or, List.find?_cons_of_neg _ hbat]

/-- Helper: in a list sorted descending by effective timestamp, the
first record satisfying the battery predicate has the maximal effective
timestamp among all such records. -/
theorem find?_is_max_of_sorted {l : List DynamoDBTelemetryItem}
    {x : DynamoDBTelemetryItem}
    (hs : l.Pairwise (fun a b => effTime b ≤ effTime a))
    (hf : l.find? isBatteryItem = some x) :
    ∀ y ∈ l, isBatteryItem y = true → effTime y ≤ effTime x := by
  induction l with
  | nil => cases hf
  | cons a rest ih =>
    rcases List.pairwise_cons.mp hs with ⟨ha, hrest⟩
    by_cases hp : isBatteryItem a = true
    · rw [List.find?_cons_of_pos _ hp] at hf
      cases hf
      intro y hy hby
      rcases List.mem_cons.mp hy with rfl | hy'
      · exact le_refl _
      · exact ha y hy'
    · rw [List.find?_cons_of_neg _ hp] at hf
      intro y hy hby
      rcases List.mem_cons.mp hy with rfl | hy'
      · exact absurd hby hp
      · exact ih hrest hf y hy' hby

/-- Helper: the adapter's sort is sorted descending by effective
timestamp. -/
theorem sortByTimestampDesc_pairwise (items : List DynamoDBTelemetryItem) :
    (sortByTimestampDesc items).Pairwise (fun a b => effTime b ≤ effTime a) := by
  have htrans : ∀ a b c : DynamoDBTelemetryItem,
      (fun a b => decide (effTime b ≤ effTime a)) a b = true →
      (fun a b => decide (effTime b ≤ effTime a)) b c = true →
      (fun a b => decide (effTime b ≤ effTime a)) a c = true := by
    intro a b c hab hbc
    exact decide_eq_true (le_trans (of_decide_eq_true hbc) (of_decide_eq_true hab))
  have htotal : ∀ a b : DynamoDBTelemetryItem,
      ((fun a b => decide (effTime b ≤ effTime a)) a b
        || (fun a b => decide (effTime b ≤ effTime a)) b a) = true := by
    intro a b
    rcases le_total (effTime b) (effTime a) with h | h
    · simp [h]
    · simp [h]
  exact (List.sorted_mergeSort htrans htotal items).imp
    (fun hab => of_decide_eq_true hab)

/-- C5: for a batch holding exactly two battery fragments whose payload
timestamps are present and positive with T1 < T2 and whose remaining
values differ, the pipeline — descending sort by effective timestamp,
first-per-kind retention with early exit, then fusion of the retained
battery fragment — yields the T2 fragment's remaining value (a
percentage in [0,100]) as the fused battery. -/
theorem most_recent_battery_wins
    (items : List DynamoDBTelemetryItem) (b1 b2 : DynamoDBTelemetryItem)
    (t1 t2 r1 r2 now : ℚ)
    (hb1 : b1 ∈ items) (hb2 : b2 ∈ items)
    (hbat1 : isBatteryItem b1 = true) (hbat2 : isBatteryItem b2 = true)
    (ht1 : b1.data.timestamp = some t1) (ht2 : b2.data.timestamp = some t2)
    (ht1pos : 0 < t1) (ht12 : t1 < t2)
    (hr1 : b1.data.remaining = some r1) (hr2 : b2.data.remaining = some r2)
    (_hrne : r1 ≠ r2)
    (honly : ∀ i ∈ items, isBatteryItem i = true → i = b1 ∨ i = b2)
    (hr2lo : 0 ≤ r2) (hr2hi : r2 ≤ 100) :
    (transformMavlinkToTelemetry
        (Dynamodb.getLatestTelemetry (Except.ok (some items))) now).battery = r2 := by
  have he1 : effTime b1 = t1 := by
    unfold effTime numOr
    rw [ht1]
    exact if_neg (by rintro rfl; exact lt_irrefl 0 ht1pos)
  have he2 : effTime b2 = t2 := by
    unfold effTime numOr
    rw [ht2]
    exact if_neg (by rintro rfl; exact lt_irrefl 0 (lt_trans ht1pos ht12))
  have hne : items.isEmpty = false := by
    cases items with
    | nil => cases hb1
    | cons a l => rfl
  have hget : Dynamodb.getLatestTelemetry (Except.ok (some items))
      = collectLatest [] (sortByTimestampDesc items) := by
    simp [Dynamodb.getLatestTelemetry, hne]
  have hperm : (sortByTimestampDesc items).Perm items :=
    List.mergeSort_perm items _
  have hb2s : b2 ∈ sortByTimestampDesc items := hperm.mem_iff.mpr hb2
  obtain ⟨x, hx⟩ : ∃ x, (sortByTimestampDesc items).find? isBatteryItem = some x := by
    cases hfx : (sortByTimestampDesc items).find? isBatteryItem with
    | some x => exact ⟨x, rfl⟩
    | none => exact absurd hbat2 (List.find?_eq_none.mp hfx b2 hb2s)
  have hxbat : isBatteryItem x = true := List.find?_some hx
  have hxmem : x ∈ items := hperm.mem_iff.mp (List.mem_of_find?_eq_some hx)
  have hxmax : effTime b2 ≤ effTime x :=
    find?_is_max_of_sorted (sortByTimestampDesc_pairwise items) hx b2 hb2s hbat2
  have hxb2 : x = b2 := by
    rcases honly x hxmem hxbat with rfl | rfl
    · rw [he1, he2] at hxmax
      exact absurd hxmax (not_le.mpr ht12)
    · rfl
  rw [hxb2] at hx
  have hcoll : (collectLatest [] (sortByTimestampDesc items)).find? isBatteryItem
      = some b2 := by
    rw [collectLatest_find?_battery _ [], List.find?_nil, Option.none_or, hx]
  rw [hget, transform_battery_eq, hcoll]
  simp only [Option.map_some', Option.some_bind, hr2, batteryPercent]
  rw [min_eq_right hr2hi, max_eq_right hr2lo]

/-- C5 (witness): two concrete battery fragments with timestamps 100 and
200 and remaining values 30 and 60: the fused battery is 60. -/
theorem most_recent_battery_wins_witness :
    (transformMavlinkToTelemetry
        (Dynamodb.getLatestTelemetry (Except.ok (some [batteryT1Item, batteryT2Item])))
        0).battery = 60 :=
  most_recent_battery_wins [batteryT1Item, batteryT2Item] batteryT1Item batteryT2Item
    100 200 30 60 0 (by decide) (by decide) rfl rfl rfl rfl (by norm_num)
    (by norm_num) rfl rfl (by norm_num) (by decide) (by norm_num) (by norm_num)
